import Mathlib

/-!
Shallow embedding of the xca9548a driver (src/lib.rs), a driver for the
TCA9548A / PCA9548A I2C multiplexer chips.

Modelling conventions:
- The underlying bus handle is an opaque value of an arbitrary type
  `I2C`: it is the identity of the handle, matching Rust move semantics
  where the driver stores the instance and only ever calls `&mut self`
  methods on it, never replacing it.  The I/O behaviour of the handle is
  a separate oracle `Transport` giving the outcome of each primitive
  embedded-hal call.
- Every driver operation returns, besides its result and the resulting
  device state, the list of transactions it issued on the bus, so that
  claims of the form "issues exactly one write to address A with payload
  P" are statements about that list.
- `core::cell::RefCell` is modelled as a value plus its runtime borrow
  flag; `try_borrow_mut` succeeds exactly when the flag is clear, and
  the scope-based drop of the `RefMut` at the end of `do_on_acquired`
  is modelled by the flag being clear again in the state an operation
  returns, on every path.
- `u8` values are `Nat`; the only arithmetic performed on them is
  bitwise or of values below 256 and shifts of a bit into the low three
  bits, which cannot overflow, so no `% 256` is needed anywhere.
-/

set_option autoImplicit false

/-- All possible errors in this crate (`enum Error<E>` in src/lib.rs):
an I2C bus error wrapping the transport error, or failure to acquire
the device (the spec calls this variant AccessConflict). -/
inductive Error (ε : Type) where
  | I2C : ε → Error ε
  | CouldNotAcquireDevice : Error ε
  deriving DecidableEq

/-- Possible slave addresses (`enum SlaveAddr`): the default address,
or the alternative address giving the states of the A2, A1, A0 pins. -/
inductive SlaveAddr where
  | Default : SlaveAddr
  | Alternative : Bool → Bool → Bool → SlaveAddr
  deriving DecidableEq

/-- `SlaveAddr::addr(self, default: u8) -> u8`: the device address used
at construction time, given the default (base) address. -/
def SlaveAddr.addr : SlaveAddr → Nat → Nat
  | SlaveAddr.Default, default => default
  | SlaveAddr.Alternative a2 a1 a0, default =>
      default ||| (a2.toNat <<< 2) ||| (a1.toNat <<< 1) ||| a0.toNat

/-- `DEVICE_BASE_ADDRESS: u8 = 0b111_0000`. -/
def DEVICE_BASE_ADDRESS : Nat := 0b1110000

/-- `struct Xca9548a<I2C>`: the concrete bus handle and the stored
device address, guarded by the RefCell. -/
structure Xca9548a (I2C : Type) where
  i2c : I2C
  address : Nat
  deriving DecidableEq

/-- Model of `core::cell::RefCell`: the guarded value together with its
runtime borrow flag. -/
structure RefCell (α : Type) where
  value : α
  borrowed : Bool
  deriving DecidableEq

/-- One primitive transaction issued on the underlying bus: kind,
7-bit target address, and payload (for reads, the length of the buffer
the transport is asked to fill). -/
inductive I2CRequest where
  | write : Nat → List Nat → I2CRequest
  | read : Nat → Nat → I2CRequest
  | writeRead : Nat → List Nat → Nat → I2CRequest
  deriving DecidableEq

/-- Behaviour oracle for the underlying embedded-hal bus: the outcome
of each primitive call. A successful read yields the bytes the
transport stored into the buffer of the requested length. -/
structure Transport (ε : Type) where
  writeResp : Nat → List Nat → Except ε Unit
  readResp : Nat → Nat → Except ε (List Nat)
  writeReadResp : Nat → List Nat → Nat → Except ε (List Nat)

/-- Rust `.map_err(Error::I2C)`. -/
def mapErrI2C {ε α : Type} : Except ε α → Except (Error ε) α
  | Except.ok a => Except.ok a
  | Except.error e => Except.error (Error.I2C e)

/-- Device driver type generated by `device!(TCA9548A)`. -/
structure TCA9548A (I2C : Type) where
  data : RefCell (Xca9548a I2C)
  deriving DecidableEq

/-- `TCA9548A::new(i2c, address)`: store the handle and the address
computed by `SlaveAddr::addr` over the base address. -/
def TCA9548A.new {I2C : Type} (i2c : I2C) (address : SlaveAddr) : TCA9548A I2C :=
  { data := { value := { i2c := i2c, address := address.addr DEVICE_BASE_ADDRESS }
            , borrowed := false } }

/-- `TCA9548A::destroy(self) -> I2C`: consume the driver, return the
owned bus handle (`self.data.into_inner().i2c`). -/
def TCA9548A.destroy {I2C : Type} (d : TCA9548A I2C) : I2C :=
  d.data.value.i2c

/-- `TCA9548A::do_on_acquired`: `try_borrow_mut` on the RefCell, error
`CouldNotAcquireDevice` when the cell is already borrowed (performing
no bus transaction), run the body on success. The `RefMut` is dropped
when the body returns, so the borrow flag is clear again in the
resulting state on every path. -/
def TCA9548A.do_on_acquired {I2C R ε : Type} (d : TCA9548A I2C)
    (f : Xca9548a I2C → Except (Error ε) R × List I2CRequest) :
    Except (Error ε) R × TCA9548A I2C × List I2CRequest :=
  if d.data.borrowed then
    (Except.error Error.CouldNotAcquireDevice, d, [])
  else
    ((f d.data.value).1, d, (f d.data.value).2)

/-- `TCA9548A::select_channels(channels: u8)`: one write of `[channels]`
to `DEVICE_BASE_ADDRESS` (the source uses the constant, not the address
stored in the device). -/
def TCA9548A.select_channels {I2C ε : Type} (t : Transport ε) (d : TCA9548A I2C)
    (channels : Nat) : Except (Error ε) Unit × TCA9548A I2C × List I2CRequest :=
  d.do_on_acquired (fun _ =>
    (mapErrI2C (t.writeResp DEVICE_BASE_ADDRESS [channels]),
     [I2CRequest.write DEVICE_BASE_ADDRESS [channels]]))

/-- `TCA9548A::get_channel_status()`: one read into a one-byte buffer
initialised to `[0]` at `DEVICE_BASE_ADDRESS`, returning `data[0]`
(the source uses the constant, not the stored address). On success the
buffer holds the bytes returned by the transport, so `data[0]` is their
first element (0, the initial content, if the transport wrote none). -/
def TCA9548A.get_channel_status {I2C ε : Type} (t : Transport ε) (d : TCA9548A I2C) :
    Except (Error ε) Nat × TCA9548A I2C × List I2CRequest :=
  d.do_on_acquired (fun _ =>
    (Except.map (fun bs => bs.headD 0) (mapErrI2C (t.readResp DEVICE_BASE_ADDRESS 1)),
     [I2CRequest.read DEVICE_BASE_ADDRESS 1]))

/-- `impl i2c::Write for TCA9548A`: pass-through write addressed to the
caller-supplied slave address with the caller-supplied bytes. -/
def TCA9548A.write {I2C ε : Type} (t : Transport ε) (d : TCA9548A I2C)
    (address : Nat) (bytes : List Nat) :
    Except (Error ε) Unit × TCA9548A I2C × List I2CRequest :=
  d.do_on_acquired (fun _ =>
    (mapErrI2C (t.writeResp address bytes), [I2CRequest.write address bytes]))

/-- `impl i2c::Read for TCA9548A`: pass-through read addressed to the
caller-supplied slave address; the ok value is the buffer content after
the call (the bytes the transport stored). -/
def TCA9548A.read {I2C ε : Type} (t : Transport ε) (d : TCA9548A I2C)
    (address : Nat) (buffer : List Nat) :
    Except (Error ε) (List Nat) × TCA9548A I2C × List I2CRequest :=
  d.do_on_acquired (fun _ =>
    (mapErrI2C (t.readResp address buffer.length),
     [I2CRequest.read address buffer.length]))

/-- `impl i2c::WriteRead for TCA9548A`: pass-through combined
write-then-read transaction addressed to the caller-supplied slave
address. -/
def TCA9548A.write_read {I2C ε : Type} (t : Transport ε) (d : TCA9548A I2C)
    (address : Nat) (bytes buffer : List Nat) :
    Except (Error ε) (List Nat) × TCA9548A I2C × List I2CRequest :=
  d.do_on_acquired (fun _ =>
    (mapErrI2C (t.writeReadResp address bytes buffer.length),
     [I2CRequest.writeRead address bytes buffer.length]))

/-- One public bus-touching operation of the driver, for reasoning
about arbitrary sequences of calls. -/
inductive Op where
  | selectChannels : Nat → Op
  | getChannelStatus : Op
  | readOp : Nat → List Nat → Op
  | writeOp : Nat → List Nat → Op
  | writeReadOp : Nat → List Nat → List Nat → Op
  deriving DecidableEq

/-- The device state after running one operation. -/
def TCA9548A.runOp {I2C ε : Type} (t : Transport ε) (d : TCA9548A I2C) : Op → TCA9548A I2C
  | Op.selectChannels mask => (TCA9548A.select_channels t d mask).2.1
  | Op.getChannelStatus => (TCA9548A.get_channel_status t d).2.1
  | Op.readOp a buf => (TCA9548A.read t d a buf).2.1
  | Op.writeOp a bs => (TCA9548A.write t d a bs).2.1
  | Op.writeReadOp a bs buf => (TCA9548A.write_read t d a bs buf).2.1

/-- The device state after running a sequence of operations. -/
def TCA9548A.runOps {I2C ε : Type} (t : Transport ε) (d : TCA9548A I2C) : List Op → TCA9548A I2C
  | [] => d
  | op :: ops => TCA9548A.runOps t (TCA9548A.runOp t d op) ops

/-- Whether a result is the exclusive-access-conflict error. -/
def isConflict {ε α : Type} : Except (Error ε) α → Bool
  | Except.error Error.CouldNotAcquireDevice => true
  | _ => false

/-- Whether running one operation yields the access-conflict error. -/
def TCA9548A.opConflict {I2C ε : Type} (t : Transport ε) (d : TCA9548A I2C) : Op → Bool
  | Op.selectChannels mask => isConflict (TCA9548A.select_channels t d mask).1
  | Op.getChannelStatus => isConflict (TCA9548A.get_channel_status t d).1
  | Op.readOp a buf => isConflict (TCA9548A.read t d a buf).1
  | Op.writeOp a bs => isConflict (TCA9548A.write t d a bs).1
  | Op.writeReadOp a bs buf => isConflict (TCA9548A.write_read t d a bs buf).1

/-- Device driver type generated by `device!(PCA9548A)`: the macro body
is textually identical to the TCA9548A instantiation. -/
structure PCA9548A (I2C : Type) where
  data : RefCell (Xca9548a I2C)
  deriving DecidableEq

/-- `PCA9548A::new(i2c, address)`. -/
def PCA9548A.new {I2C : Type} (i2c : I2C) (address : SlaveAddr) : PCA9548A I2C :=
  { data := { value := { i2c := i2c, address := address.addr DEVICE_BASE_ADDRESS }
            , borrowed := false } }

/-- `PCA9548A::destroy(self) -> I2C`. -/
def PCA9548A.destroy {I2C : Type} (d : PCA9548A I2C) : I2C :=
  d.data.value.i2c

/-- `PCA9548A::do_on_acquired`. -/
def PCA9548A.do_on_acquired {I2C R ε : Type} (d : PCA9548A I2C)
    (f : Xca9548a I2C → Except (Error ε) R × List I2CRequest) :
    Except (Error ε) R × PCA9548A I2C × List I2CRequest :=
  if d.data.borrowed then
    (Except.error Error.CouldNotAcquireDevice, d, [])
  else
    ((f d.data.value).1, d, (f d.data.value).2)

/-- `PCA9548A::select_channels(channels: u8)`. -/
def PCA9548A.select_channels {I2C ε : Type} (t : Transport ε) (d : PCA9548A I2C)
    (channels : Nat) : Except (Error ε) Unit × PCA9548A I2C × List I2CRequest :=
  d.do_on_acquired (fun _ =>
    (mapErrI2C (t.writeResp DEVICE_BASE_ADDRESS [channels]),
     [I2CRequest.write DEVICE_BASE_ADDRESS [channels]]))

/-- `PCA9548A::get_channel_status()`. -/
def PCA9548A.get_channel_status {I2C ε : Type} (t : Transport ε) (d : PCA9548A I2C) :
    Except (Error ε) Nat × PCA9548A I2C × List I2CRequest :=
  d.do_on_acquired (fun _ =>
    (Except.map (fun bs => bs.headD 0) (mapErrI2C (t.readResp DEVICE_BASE_ADDRESS 1)),
     [I2CRequest.read DEVICE_BASE_ADDRESS 1]))

/-- `impl i2c::Write for PCA9548A`. -/
def PCA9548A.write {I2C ε : Type} (t : Transport ε) (d : PCA9548A I2C)
    (address : Nat) (bytes : List Nat) :
    Except (Error ε) Unit × PCA9548A I2C × List I2CRequest :=
  d.do_on_acquired (fun _ =>
    (mapErrI2C (t.writeResp address bytes), [I2CRequest.write address bytes]))

/-- `impl i2c::Read for PCA9548A`. -/
def PCA9548A.read {I2C ε : Type} (t : Transport ε) (d : PCA9548A I2C)
    (address : Nat) (buffer : List Nat) :
    Except (Error ε) (List Nat) × PCA9548A I2C × List I2CRequest :=
  d.do_on_acquired (fun _ =>
    (mapErrI2C (t.readResp address buffer.length),
     [I2CRequest.read address buffer.length]))

/-- `impl i2c::WriteRead for PCA9548A`. -/
def PCA9548A.write_read {I2C ε : Type} (t : Transport ε) (d : PCA9548A I2C)
    (address : Nat) (bytes buffer : List Nat) :
    Except (Error ε) (List Nat) × PCA9548A I2C × List I2CRequest :=
  d.do_on_acquired (fun _ =>
    (mapErrI2C (t.writeReadResp address bytes buffer.length),
     [I2CRequest.writeRead address bytes buffer.length]))

/-- The two macro instantiations share their representation; this is
the field-for-field translation from the TCA9548A state to the
PCA9548A state. -/
def toPCA {I2C : Type} (d : TCA9548A I2C) : PCA9548A I2C :=
  { data := d.data }

/-- A transport oracle on which every call succeeds; reads fill the
buffer with the byte 0xAB. -/
def okT : Transport Unit :=
  { writeResp := fun _ _ => Except.ok ()
  , readResp := fun _ n => Except.ok (List.replicate n 0xAB)
  , writeReadResp := fun _ _ n => Except.ok (List.replicate n 0xAB) }

/-- A transport oracle on which every call fails. -/
def errT : Transport Unit :=
  { writeResp := fun _ _ => Except.error ()
  , readResp := fun _ _ => Except.error ()
  , writeReadResp := fun _ _ _ => Except.error () }

/-- A device at the default address over a unit handle. -/
def devDefault : TCA9548A Unit := TCA9548A.new () SlaveAddr.Default

/-- A device constructed with the alternative selector A2=0, A1=0,
A0=1, whose stored address is therefore 0b1110001. -/
def devAlt : TCA9548A Unit := TCA9548A.new () (SlaveAddr.Alternative false false true)

/-- A device state whose RefCell is currently mutably borrowed: the
state seen by a re-entrant call made while an operation is running. -/
def devBusy : TCA9548A Unit :=
  { data := { value := { i2c := (), address := DEVICE_BASE_ADDRESS }, borrowed := true } }

/-- Helper: whatever the borrow flag and body, `do_on_acquired` returns
the device state it was given (address and handle are never changed,
and the RefMut is dropped before returning). -/
theorem do_on_acquired_state {I2C R ε : Type} (d : TCA9548A I2C)
    (f : Xca9548a I2C → Except (Error ε) R × List I2CRequest) :
    (d.do_on_acquired f).2.1 = d := by
  unfold TCA9548A.do_on_acquired
  split <;> rfl

/-- Helper: on a device whose RefCell is not borrowed, `do_on_acquired`
runs the body. -/
theorem do_on_acquired_free {I2C R ε : Type} (d : TCA9548A I2C)
    (f : Xca9548a I2C → Except (Error ε) R × List I2CRequest)
    (hb : d.data.borrowed = false) :
    d.do_on_acquired f = ((f d.data.value).1, d, (f d.data.value).2) := by
  unfold TCA9548A.do_on_acquired
  simp [hb]

/-- Helper: on a device whose RefCell is borrowed, `do_on_acquired`
fails with `CouldNotAcquireDevice` and issues no transaction. -/
theorem do_on_acquired_busy {I2C R ε : Type} (d : TCA9548A I2C)
    (f : Xca9548a I2C → Except (Error ε) R × List I2CRequest)
    (hb : d.data.borrowed = true) :
    d.do_on_acquired f = (Except.error Error.CouldNotAcquireDevice, d, []) := by
  unfold TCA9548A.do_on_acquired
  simp [hb]

/-- Helper: no operation changes the device state. -/
theorem runOp_state {I2C ε : Type} (t : Transport ε) (d : TCA9548A I2C) (op : Op) :
    TCA9548A.runOp t d op = d := by
  cases op <;>
    simp [TCA9548A.runOp, TCA9548A.select_channels, TCA9548A.get_channel_status,
      TCA9548A.read, TCA9548A.write, TCA9548A.write_read, do_on_acquired_state]

/-- Helper: no sequence of operations changes the device state. -/
theorem runOps_state {I2C ε : Type} (t : Transport ε) (d : TCA9548A I2C) (ops : List Op) :
    TCA9548A.runOps t d ops = d := by
  induction ops with
  | nil => rfl
  | cons op ops ih => rw [TCA9548A.runOps, runOp_state, ih]

/-- Helper: wrapping a transport outcome never produces the
access-conflict error. -/
theorem isConflict_mapErrI2C {ε α : Type} (r : Except ε α) :
    isConflict (mapErrI2C r) = false := by
  cases r <;> rfl

/-- Helper: mapping over a wrapped transport outcome never produces the
access-conflict error. -/
theorem isConflict_map_mapErrI2C {ε α β : Type} (g : α → β) (r : Except ε α) :
    isConflict (Except.map g (mapErrI2C r)) = false := by
  cases r <;> rfl

/-- Helper: from an unborrowed state, no operation returns the
access-conflict error. -/
theorem opConflict_free {I2C ε : Type} (t : Transport ε) (d : TCA9548A I2C)
    (hb : d.data.borrowed = false) (op : Op) :
    TCA9548A.opConflict t d op = false := by
  cases op <;>
    simp [TCA9548A.opConflict, TCA9548A.select_channels, TCA9548A.get_channel_status,
      TCA9548A.read, TCA9548A.write, TCA9548A.write_read,
      do_on_acquired_free _ _ hb, isConflict_mapErrI2C, isConflict_map_mapErrI2C]

/-- C1: evidence against the claim that select_channels and
get_channel_status address the device address computed at construction:
on the device constructed with Alternative(A2=0,A1=0,A0=1) the stored
address is 0b1110001, yet both operations issue their single
transaction to the constant 0b1110000. -/
theorem C1_operations_ignore_stored_address :
    devAlt.data.value.address = 0b1110001
      ∧ (TCA9548A.select_channels okT devAlt 1).2.2
          = [I2CRequest.write 0b1110000 [1]]
      ∧ (TCA9548A.get_channel_status okT devAlt).2.2
          = [I2CRequest.read 0b1110000 1] :=
  ⟨rfl, rfl, rfl⟩

/-- C2: for every mask in 0..=255, a successful select_channels(mask)
issues exactly one write transaction, to address 0b1110000, with
payload exactly [mask], and returns ok. -/
theorem C2_select_channels_single_write {I2C ε : Type} (t : Transport ε)
    (d : TCA9548A I2C) (mask : Nat) (hm : mask ≤ 255)
    (hb : d.data.borrowed = false)
    (hw : t.writeResp 0b1110000 [mask] = Except.ok ()) :
    TCA9548A.select_channels t d mask
      = (Except.ok (), d, [I2CRequest.write 0b1110000 [mask]]) := by
  unfold TCA9548A.select_channels
  rw [do_on_acquired_free _ _ hb]
  simp [DEVICE_BASE_ADDRESS, hw, mapErrI2C]

/-- Witness for C2 at mask 5 on a transport on which every call
succeeds. -/
theorem C2_select_channels_single_write_witness :
    5 ≤ 255 ∧ devDefault.data.borrowed = false
      ∧ okT.writeResp 0b1110000 [5] = Except.ok ()
      ∧ TCA9548A.select_channels okT devDefault 5
          = (Except.ok (), devDefault, [I2CRequest.write 0b1110000 [5]]) :=
  ⟨by decide, rfl, rfl,
    C2_select_channels_single_write okT devDefault 5 (by decide) rfl rfl⟩

/-- C3: a successful get_channel_status() issues exactly one one-byte
read transaction from address 0b1110000 and returns the byte the
transport stored into the buffer, unmodified. -/
theorem C3_get_channel_status_single_read {I2C ε : Type} (t : Transport ε)
    (d : TCA9548A I2C) (b : Nat)
    (hb : d.data.borrowed = false)
    (hr : t.readResp 0b1110000 1 = Except.ok [b]) :
    TCA9548A.get_channel_status t d
      = (Except.ok b, d, [I2CRequest.read 0b1110000 1]) := by
  unfold TCA9548A.get_channel_status
  rw [do_on_acquired_free _ _ hb]
  simp [DEVICE_BASE_ADDRESS, hr, mapErrI2C, Except.map]

/-- Witness for C3 on a transport whose reads fill the buffer with
0xAB. -/
theorem C3_get_channel_status_single_read_witness :
    devDefault.data.borrowed = false
      ∧ okT.readResp 0b1110000 1 = Except.ok [0xAB]
      ∧ TCA9548A.get_channel_status okT devDefault
          = (Except.ok 0xAB, devDefault, [I2CRequest.read 0b1110000 1]) :=
  ⟨rfl, rfl, C3_get_channel_status_single_read okT devDefault 0xAB rfl rfl⟩

/-- C4: the address resolver is pure and total by construction; Default
resolves to the base unchanged; Alternative(a2,a1,a0) resolves to
base | (a2*4 + a1*2 + a0*1); over base 0b1110000 the eight strap
combinations yield exactly 0b1110000..0b1110111. -/
theorem C4_address_resolver :
    (∀ B : Nat, SlaveAddr.addr SlaveAddr.Default B = B)
      ∧ (∀ (B : Nat) (a2 a1 a0 : Bool),
          SlaveAddr.addr (SlaveAddr.Alternative a2 a1 a0) B
            = B ||| (a2.toNat * 4 + a1.toNat * 2 + a0.toNat * 1))
      ∧ List.map
          (fun p => SlaveAddr.addr (SlaveAddr.Alternative p.1 p.2.1 p.2.2) 0b1110000)
          [(false, false, false), (false, false, true), (false, true, false),
            (false, true, true), (true, false, false), (true, false, true),
            (true, true, false), (true, true, true)]
          = [0b1110000, 0b1110001, 0b1110010, 0b1110011,
             0b1110100, 0b1110101, 0b1110110, 0b1110111] := by
  refine ⟨fun B => rfl, fun B a2 a1 a0 => ?_, by decide⟩
  cases a2 <;> cases a1 <;> cases a0 <;>
    simp only [SlaveAddr.addr, Bool.toNat_true, Bool.toNat_false, Nat.or_assoc] <;>
    congr 1

/-- C5: the pass-through operations forward exactly one transaction of
the corresponding kind to the transport, addressed to the
caller-supplied slave address (not the multiplexer address), with the
payload and buffer passed through unmodified, the result being exactly
the wrapped transport outcome. -/
theorem C5_passthrough_unmodified {I2C ε : Type} (t : Transport ε)
    (d : TCA9548A I2C) (X : Nat) (bytes buffer : List Nat)
    (hb : d.data.borrowed = false) :
    TCA9548A.write t d X bytes
        = (mapErrI2C (t.writeResp X bytes), d, [I2CRequest.write X bytes])
      ∧ TCA9548A.read t d X buffer
        = (mapErrI2C (t.readResp X buffer.length), d,
            [I2CRequest.read X buffer.length])
      ∧ TCA9548A.write_read t d X bytes buffer
        = (mapErrI2C (t.writeReadResp X bytes buffer.length), d,
            [I2CRequest.writeRead X bytes buffer.length]) := by
  refine ⟨?_, ?_, ?_⟩
  · unfold TCA9548A.write
    rw [do_on_acquired_free _ _ hb]
  · unfold TCA9548A.read
    rw [do_on_acquired_free _ _ hb]
  · unfold TCA9548A.write_read
    rw [do_on_acquired_free _ _ hb]

/-- Witness for C5 at slave address 0x20 with payload [1, 2] and a
two-byte buffer. -/
theorem C5_passthrough_unmodified_witness :
    devDefault.data.borrowed = false
      ∧ TCA9548A.write okT devDefault 0x20 [1, 2]
          = (Except.ok (), devDefault, [I2CRequest.write 0x20 [1, 2]])
      ∧ TCA9548A.read okT devDefault 0x20 [0, 0]
          = (Except.ok [0xAB, 0xAB], devDefault, [I2CRequest.read 0x20 2]) :=
  ⟨rfl, (C5_passthrough_unmodified okT devDefault 0x20 [1, 2] [0, 0] rfl).1,
    (C5_passthrough_unmodified okT devDefault 0x20 [1, 2] [0, 0] rfl).2.1⟩

/-- C6: when the underlying transport call fails with error e, each
public operation returns exactly Error.I2C e (the TransportError
wrapping of e), leaves the device state unchanged, and has issued
exactly its single attempted transaction, with no retry. -/
theorem C6_transport_error_roundtrip {I2C ε : Type} (t : Transport ε)
    (d : TCA9548A I2C) (e : ε) (mask X : Nat) (bytes buffer : List Nat)
    (hb : d.data.borrowed = false) :
    (t.writeResp DEVICE_BASE_ADDRESS [mask] = Except.error e →
        TCA9548A.select_channels t d mask
          = (Except.error (Error.I2C e), d,
              [I2CRequest.write DEVICE_BASE_ADDRESS [mask]]))
      ∧ (t.readResp DEVICE_BASE_ADDRESS 1 = Except.error e →
          TCA9548A.get_channel_status t d
            = (Except.error (Error.I2C e), d,
                [I2CRequest.read DEVICE_BASE_ADDRESS 1]))
      ∧ (t.writeResp X bytes = Except.error e →
          TCA9548A.write t d X bytes
            = (Except.error (Error.I2C e), d, [I2CRequest.write X bytes]))
      ∧ (t.readResp X buffer.length = Except.error e →
          TCA9548A.read t d X buffer
            = (Except.error (Error.I2C e), d,
                [I2CRequest.read X buffer.length]))
      ∧ (t.writeReadResp X bytes buffer.length = Except.error e →
          TCA9548A.write_read t d X bytes buffer
            = (Except.error (Error.I2C e), d,
                [I2CRequest.writeRead X bytes buffer.length])) := by
  refine ⟨fun hw => ?_, fun hr => ?_, fun hw => ?_, fun hr => ?_, fun hw => ?_⟩
  · unfold TCA9548A.select_channels
    rw [do_on_acquired_free _ _ hb]
    simp [hw, mapErrI2C]
  · unfold TCA9548A.get_channel_status
    rw [do_on_acquired_free _ _ hb]
    simp [hr, mapErrI2C, Except.map]
  · unfold TCA9548A.write
    rw [do_on_acquired_free _ _ hb]
    simp [hw, mapErrI2C]
  · unfold TCA9548A.read
    rw [do_on_acquired_free _ _ hb]
    simp [hr, mapErrI2C]
  · unfold TCA9548A.write_read
    rw [do_on_acquired_free _ _ hb]
    simp [hw, mapErrI2C]

/-- Witness for C6 on a transport on which every call fails. -/
theorem C6_transport_error_roundtrip_witness :
    devDefault.data.borrowed = false
      ∧ errT.writeResp DEVICE_BASE_ADDRESS [3] = Except.error ()
      ∧ TCA9548A.select_channels errT devDefault 3
          = (Except.error (Error.I2C ()), devDefault,
              [I2CRequest.write DEVICE_BASE_ADDRESS [3]]) :=
  ⟨rfl, rfl,
    (C6_transport_error_roundtrip errT devDefault () 3 0x20 [1, 2] [0] rfl).1 rfl⟩

/-- C7: a public operation invoked while the device state is already
mutably borrowed (a re-entrant call) returns the access-conflict error
CouldNotAcquireDevice, leaves the state unchanged, and performs zero
transport calls. -/
theorem C7_reentrant_access_conflict {I2C ε : Type} (t : Transport ε)
    (d : TCA9548A I2C) (mask X : Nat) (bytes buffer : List Nat)
    (hb : d.data.borrowed = true) :
    TCA9548A.select_channels t d mask
        = (Except.error Error.CouldNotAcquireDevice, d, [])
      ∧ TCA9548A.get_channel_status t d
        = (Except.error Error.CouldNotAcquireDevice, d, [])
      ∧ TCA9548A.read t d X buffer
        = (Except.error Error.CouldNotAcquireDevice, d, [])
      ∧ TCA9548A.write t d X bytes
        = (Except.error Error.CouldNotAcquireDevice, d, [])
      ∧ TCA9548A.write_read t d X bytes buffer
        = (Except.error Error.CouldNotAcquireDevice, d, []) := by
  refine ⟨?_, ?_, ?_, ?_, ?_⟩
  · unfold TCA9548A.select_channels
    rw [do_on_acquired_busy _ _ hb]
  · unfold TCA9548A.get_channel_status
    rw [do_on_acquired_busy _ _ hb]
  · unfold TCA9548A.read
    rw [do_on_acquired_busy _ _ hb]
  · unfold TCA9548A.write
    rw [do_on_acquired_busy _ _ hb]
  · unfold TCA9548A.write_read
    rw [do_on_acquired_busy _ _ hb]

/-- Witness for C7 on a device state whose RefCell is currently
borrowed. -/
theorem C7_reentrant_access_conflict_witness :
    devBusy.data.borrowed = true
      ∧ TCA9548A.select_channels okT devBusy 1
          = (Except.error Error.CouldNotAcquireDevice, devBusy, []) :=
  ⟨rfl, (C7_reentrant_access_conflict okT devBusy 1 0x20 [1] [0] rfl).1⟩

/-- C8: destroy applied after any sequence of operations on the device
built by new(h, s) returns exactly the bus handle h, for every
transport behaviour and selector; destroy itself is total (no failure
path). -/
theorem C8_destroy_returns_handle {I2C ε : Type} (t : Transport ε) (h : I2C)
    (s : SlaveAddr) (ops : List Op) :
    TCA9548A.destroy (TCA9548A.runOps t (TCA9548A.new h s) ops) = h := by
  rw [runOps_state]
  rfl

/-- C9: exclusive access is scoped: from an unborrowed state, every
operation returns with the borrow flag clear again and never fails
with the access-conflict error; consequently no operation in any
sequential sequence of operations fails with it. -/
theorem C9_scoped_exclusive_access {I2C ε : Type} (t : Transport ε)
    (d : TCA9548A I2C) (hb : d.data.borrowed = false) :
    (∀ op, (TCA9548A.runOp t d op).data.borrowed = false
        ∧ TCA9548A.opConflict t d op = false)
      ∧ ∀ ops op, TCA9548A.opConflict t (TCA9548A.runOps t d ops) op = false := by
  refine ⟨fun op => ⟨?_, opConflict_free t d hb op⟩, fun ops op => ?_⟩
  · rw [runOp_state]
    exact hb
  · rw [runOps_state]
    exact opConflict_free t d hb op

/-- Witness for C9 at a select_channels operation on a freshly
constructed device. -/
theorem C9_scoped_exclusive_access_witness :
    devDefault.data.borrowed = false
      ∧ ((TCA9548A.runOp okT devDefault (Op.selectChannels 3)).data.borrowed = false
        ∧ TCA9548A.opConflict okT devDefault (Op.selectChannels 3) = false) :=
  ⟨rfl, (C9_scoped_exclusive_access okT devDefault rfl).1 (Op.selectChannels 3)⟩

/-- C10: the TCA9548A and PCA9548A instantiations of the device macro
are behaviourally identical: under the field-for-field translation
toPCA, construction, teardown and all five bus operations produce
identical results, identical transaction lists, and corresponding
states, for every transport behaviour and input. -/
theorem C10_tca_pca_equivalent {I2C ε : Type} (t : Transport ε) (i2c : I2C)
    (s : SlaveAddr) (d : TCA9548A I2C) (mask X : Nat) (bytes buffer : List Nat) :
    toPCA (TCA9548A.new i2c s) = PCA9548A.new i2c s
      ∧ PCA9548A.destroy (toPCA d) = TCA9548A.destroy d
      ∧ PCA9548A.select_channels t (toPCA d) mask
          = ((TCA9548A.select_channels t d mask).1,
             toPCA (TCA9548A.select_channels t d mask).2.1,
             (TCA9548A.select_channels t d mask).2.2)
      ∧ PCA9548A.get_channel_status t (toPCA d)
          = ((TCA9548A.get_channel_status t d).1,
             toPCA (TCA9548A.get_channel_status t d).2.1,
             (TCA9548A.get_channel_status t d).2.2)
      ∧ PCA9548A.read t (toPCA d) X buffer
          = ((TCA9548A.read t d X buffer).1,
             toPCA (TCA9548A.read t d X buffer).2.1,
             (TCA9548A.read t d X buffer).2.2)
      ∧ PCA9548A.write t (toPCA d) X bytes
          = ((TCA9548A.write t d X bytes).1,
             toPCA (TCA9548A.write t d X bytes).2.1,
             (TCA9548A.write t d X bytes).2.2)
      ∧ PCA9548A.write_read t (toPCA d) X bytes buffer
          = ((TCA9548A.write_read t d X bytes buffer).1,
             toPCA (TCA9548A.write_read t d X bytes buffer).2.1,
             (TCA9548A.write_read t d X bytes buffer).2.2) := by
  refine ⟨rfl, rfl, ?_, ?_, ?_, ?_, ?_⟩ <;>
    cases hb : d.data.borrowed <;>
      simp [toPCA, TCA9548A.select_channels, PCA9548A.select_channels,
        TCA9548A.get_channel_status, PCA9548A.get_channel_status,
        TCA9548A.read, PCA9548A.read, TCA9548A.write, PCA9548A.write,
        TCA9548A.write_read, PCA9548A.write_read,
        TCA9548A.do_on_acquired, PCA9548A.do_on_acquired, hb]
